import Mathlib

/-!
Shallow embedding of the `ZettlrToolbar` view class from
`source/renderer/zettlr-toolbar.js`.

The toolbar state records the fields the class reads and writes: the
searchbar value and selection, the file-info text, the class list of the
toolbar div, the hidden flag and drawn progress fraction of the search
progress indicator, and the private autocomplete fields `_autocomplete`
and `_oldval`.  Calls into the external renderer object are modelled as a
log of `RendererCall` values appended to the renderer state; reads of the
renderer (`getFilesInDirectory`) read the renderer state without logging.
The i18n function `trans` and the helper `localiseNumber` live outside the
repository excerpt and are taken as function parameters.
-/

namespace ZettlrToolbar

/-- A JavaScript value as it appears in the dispatch calls of the toolbar:
a string, the empty object literal used as a fallback, or `undefined`. -/
inductive JSVal where
  | str (s : String)
  | emptyObj
  | undef
deriving DecidableEq, Repr

/-- One outbound call from the toolbar into the renderer object. -/
inductive RendererCall where
  | handleEvent (command : String) (content : JSVal)
  | exitSearch
  | beginSearch (term : String)
  | showFileInfo
deriving DecidableEq, Repr

/-- The `data-command` and `data-content` attributes of a clicked toolbar
element carrying the class `button`; `none` models a missing attribute. -/
structure ButtonElem where
  dataCommand : Option String
  dataContent : Option String
deriving DecidableEq, Repr

/-- The DOM events the listeners registered in `_act` react to. -/
inductive Ev where
  | keyup (which : Nat)
  | endSearchClick
  | focus
  | blur
  | fileInfoClick
  | buttonClick (b : ButtonElem)
  | dblclick
deriving DecidableEq, Repr

/-- The mutable state of the toolbar view object. -/
structure Toolbar where
  searchbarValue : String
  searchbarSelection : Option (Nat × Nat)
  searchbarFocused : Bool
  fileInfoText : String
  divClasses : List String
  progressHidden : Bool
  progressPath : Option ℚ
  autocomplete : List String
  oldval : String
deriving DecidableEq, Repr

/-- The state of the external renderer object: the file list returned by
`getFilesInDirectory`, and the log of calls the toolbar made into it. -/
structure RendererSt where
  filesInDirectory : List String
  log : List RendererCall
deriving DecidableEq, Repr

/-- The toolbar view together with the external renderer it talks to. -/
structure World where
  toolbar : Toolbar
  renderer : RendererSt
deriving DecidableEq, Repr

/-- The toolbar state right after the constructor ran: empty searchbar,
the progress indicator inserted with the class `hidden` and an empty path,
and the autocomplete fields initialised to `[]` and the empty string. -/
def initialToolbar : Toolbar where
  searchbarValue := ""
  searchbarSelection := none
  searchbarFocused := false
  fileInfoText := ""
  divClasses := []
  progressHidden := true
  progressPath := none
  autocomplete := []
  oldval := ""

/-- JavaScript `toLowerCase`, mapped over the characters of the string. -/
def toLowerCase (s : String) : String := String.mk (s.data.map Char.toLower)

/-- JavaScript `s.substr(0, n)`: the leading piece of length `n`. -/
def strTake (s : String) (n : Nat) : String := String.mk (s.data.take n)

/-- JavaScript `s.substr(n)`: the string without its first `n`
characters. -/
def strDrop (s : String) (n : Nat) : String := String.mk (s.data.drop n)

/-- JavaScript `x || d` for a string-or-undefined `x`: the fallback `d` is
used when `x` is `undefined` or the (falsy) empty string. -/
def jsOrStr : Option String → String → String
  | none, d => d
  | some s, d => if s = "" then d else s

/-- JavaScript `x || \x7b\x7d` for the `data-content` attribute: the empty
object is used when the attribute is `undefined` or the empty string. -/
def jsOrContent : Option String → JSVal
  | none => JSVal.emptyObj
  | some s => if s = "" then JSVal.emptyObj else JSVal.str s

/-- The `for ... of this._autocomplete` loop of the keyup handler
(lines 68-75): scan the names in order; at the first `name` whose leading
piece of the typed length equals the typed value case-insensitively,
return the value written into the searchbar (`_oldval` plus the rest of
the name) and stop; return `none` when no name matches. -/
def autocompleteLoop (oldval : String) : List String → Option String
  | [] => none
  | name :: rest =>
    if toLowerCase (strTake name oldval.length) == toLowerCase oldval then
      some (oldval ++ strDrop name oldval.length)
    else
      autocompleteLoop oldval rest

/-- The branch of the keyup handler for keys other than ESC, RETURN, DEL
and backspace (lines 64-77): bail out when the value is empty or
unchanged, otherwise run the autocomplete loop, write the completed value
and select the appended piece, and store the new value in `_oldval`. -/
def keyupOther (t : Toolbar) : Toolbar :=
  if t.searchbarValue = "" ∨ t.searchbarValue = t.oldval then t
  else
    match autocompleteLoop t.searchbarValue t.autocomplete with
    | some newval =>
      { t with searchbarValue := newval
               searchbarSelection := some (t.searchbarValue.length, newval.length)
               searchbarFocused := true
               oldval := newval }
    | none => { t with oldval := t.searchbarValue }

/-- The event listeners registered in `_act`, as one function from the
toolbar state, the file list the renderer would return, and the event to
the new toolbar state and the list of calls made into the renderer. -/
def handle (t : Toolbar) (files : List String) : Ev → Toolbar × List RendererCall
  | .keyup which =>
    if which = 27 then
      ({ t with searchbarFocused := false, searchbarValue := "" }, [.exitSearch])
    else if which = 13 then
      ({ t with searchbarSelection := some (0, t.searchbarValue.length) },
       [.beginSearch t.searchbarValue])
    else if which = 8 ∨ which = 46 then (t, [])
    else (keyupOther t, [])
  | .endSearchClick =>
    ({ t with searchbarFocused := false, searchbarValue := "" }, [.exitSearch])
  | .focus =>
    ({ t with searchbarFocused := true
              searchbarSelection := some (0, t.searchbarValue.length)
              autocomplete := files }, [])
  | .blur =>
    ({ t with searchbarFocused := false, autocomplete := [], oldval := "" }, [])
  | .fileInfoClick => (t, [.showFileInfo])
  | .buttonClick b =>
    (t, [.handleEvent (jsOrStr b.dataCommand "unknown-command")
                      (jsOrContent b.dataContent)])
  | .dblclick => (t, [.handleEvent "app-maximise" .undef])

/-- One event step on the world: run the listener and append its renderer
calls to the log. -/
def step (w : World) (e : Ev) : World :=
  let r := handle w.toolbar w.renderer.filesInDirectory e
  { toolbar := r.1
    renderer := { w.renderer with log := w.renderer.log ++ r.2 } }

/-- Run a sequence of events. -/
def run (w : World) (es : List Ev) : World := es.foldl step w

/-- How one event changes the focus-open flag: focus raises it, blur
clears it, every other event leaves it. -/
def focusAcc (b : Bool) : Ev → Bool
  | .focus => true
  | .blur => false
  | _ => b

/-- Whether, after the events scanned so far, a focus has happened with no
later blur; the accumulator carries the state before the suffix. -/
def focusOpenAux (b : Bool) : List Ev → Bool
  | [] => b
  | e :: rest => focusOpenAux (focusAcc b e) rest

/-- Whether the trace ends inside a focus with no following blur. -/
def focusOpen (es : List Ev) : Bool := focusOpenAux false es

/-- jQuery `toggleClass c`: remove the class when present, add it when
absent. -/
def toggleClass (c : String) (l : List String) : List String :=
  if c ∈ l then l.filter (fun x => x != c) else l ++ [c]

/-- The return value of a toolbar method: the toolbar itself (`this`,
for chainability) or `undefined`. -/
inductive JRet where
  | thisToolbar
  | undef
deriving DecidableEq, Repr

/-- `hideWordCount`: clear the file-info text. -/
def hideWordCount (w : World) : World :=
  { w with toolbar := { w.toolbar with fileInfoText := "" } }

/-- `updateWordCount`: for a zero count delegate to `hideWordCount`,
otherwise write the translated, localised count into the file-info area.
`tr` models the two-argument `trans` call and `loc` models
`localiseNumber`; both live outside the excerpt. -/
def updateWordCount (tr : String → String → String) (loc : Int → String)
    (w : World) (words : Int) : World :=
  if words = 0 then hideWordCount w
  else { w with toolbar :=
          { w.toolbar with fileInfoText := tr "gui.words" (loc words) } }

/-- `toggleDistractionFree`: toggle the class `mute` on the toolbar div
and return `this`. -/
def toggleDistractionFree (w : World) : World × JRet :=
  ({ w with toolbar :=
      { w.toolbar with divClasses := toggleClass "mute" w.toolbar.divClasses } },
   JRet.thisToolbar)

/-- `focusSearch`: focus the searchbar and select its contents. -/
def focusSearch (w : World) : World :=
  { w with toolbar :=
      { w.toolbar with
          searchbarFocused := true
          searchbarSelection := some (0, w.toolbar.searchbarValue.length) } }

/-- `setSearch`: overwrite the searchbar value. -/
def setSearch (w : World) (term : String) : World :=
  { w with toolbar := { w.toolbar with searchbarValue := term } }

/-- `searchProgress`: when the indicator carries the class `hidden`,
remove that class only; otherwise recompute the arc path from the
progress fraction `item / itemCnt`. -/
def searchProgress (w : World) (item itemCnt : ℚ) : World :=
  if w.toolbar.progressHidden then
    { w with toolbar := { w.toolbar with progressHidden := false } }
  else
    { w with toolbar :=
        { w.toolbar with progressPath := some (item / itemCnt) } }

/-- `endSearch`: put the class `hidden` back on the indicator. -/
def endSearch (w : World) : World :=
  { w with toolbar := { w.toolbar with progressHidden := true } }

/-- The large-arc flag written into the path attribute for a drawn
progress fraction (line 211). -/
def largeArcFlag (progress : ℚ) : Nat := if progress > 1/2 then 1 else 0

/-- The x coordinate of the arc endpoint for a drawn progress fraction
(line 212). -/
noncomputable def arcX (progress : ℚ) : ℝ :=
  Real.cos (2 * Real.pi * (progress : ℝ))

/-- The y coordinate of the arc endpoint for a drawn progress fraction
(line 213). -/
noncomputable def arcY (progress : ℚ) : ℝ :=
  Real.sin (2 * Real.pi * (progress : ℝ))

/-- A toolbar element descriptor from the static `toolbar.json` template.
The JSON field named `class` (a Lean keyword) is called `cls` here. -/
structure Descriptor where
  role : String
  cls : String
  command : String
  content : String
  title : String
deriving DecidableEq, Repr

/-- A DOM child appended to the toolbar div by `_build`: its class list,
its attributes, and its inner HTML. -/
structure DomChild where
  classes : List String
  attrs : List (String × String)
  innerHtml : String
deriving DecidableEq, Repr

/-- The inner HTML written into a searchbar child (line 141). -/
def searchbarHtml : String :=
  "<input type=\"text\"><div class=\"end-search\">&times;</div>"

/-- The inner HTML written into a pomodoro child (line 145). -/
def pomodoroSvgHtml : String :=
  "<svg width=\"20\" height=\"20\" viewBox=\"-1 -1 2 2\"><circle class=\"pomodoro-meter\" cx=\"0\" cy=\"0\" r=\"1\" shape-rendering=\"geometricPrecision\"></circle><path d=\"\" fill=\"\" class=\"pomodoro-value\" shape-rendering=\"geometricPrecision\"></path></svg>"

/-- The loop body of `_build` (lines 133-147): a div classed with the
role, specialised per role. -/
def buildChild (tr : String → String) (e : Descriptor) : DomChild :=
  if e.role = "button" then
    { classes := [e.role, e.cls]
      attrs := [("data-command", e.command), ("data-content", e.content),
                ("title", tr e.title)]
      innerHtml := "" }
  else if e.role = "searchbar" then
    { classes := [e.role], attrs := [], innerHtml := searchbarHtml }
  else if e.role = "pomodoro" then
    { classes := [e.role, "button"], attrs := [("data-command", "pomodoro")],
      innerHtml := pomodoroSvgHtml }
  else
    { classes := [e.role], attrs := [], innerHtml := "" }

/-- The `for ... of tpl` loop of `_build`, appending one child per
descriptor to the div. -/
def buildLoop (tr : String → String) (div : List DomChild) :
    List Descriptor → List DomChild
  | [] => div
  | e :: rest => buildLoop tr (div ++ [buildChild tr e]) rest

/-- Spec-side reading of claim C1: the command with the fallback applied
only when the attribute is missing. -/
def claimedCommand (b : ButtonElem) : String :=
  b.dataCommand.getD "unknown-command"

/-- Spec-side reading of claim C1: the content with the fallback applied
only when the attribute is missing. -/
def claimedContent (b : ButtonElem) : JSVal :=
  match b.dataContent with
  | none => JSVal.emptyObj
  | some s => JSVal.str s

/-- Spec-side predicate of claim C5: is this renderer call a generic
`handleEvent` dispatch? -/
def isHandleEvent : RendererCall → Bool
  | .handleEvent _ _ => true
  | _ => false

/-- A button element whose two data attributes are present but empty. -/
def emptyAttrButton : ButtonElem := { dataCommand := some "", dataContent := some "" }

/-- A freshly constructed world: initial toolbar, one file in the
directory, empty call log. -/
def sampleWorld : World :=
  { toolbar := initialToolbar
    renderer := { filesInDirectory := ["Alpha.md"], log := [] } }

/-- A world whose progress indicator still carries the class `hidden`. -/
def hiddenWorld : World :=
  { toolbar := initialToolbar
    renderer := { filesInDirectory := [], log := [] } }

/-- A world whose progress indicator is visible. -/
def visibleWorld : World :=
  { toolbar := { initialToolbar with progressHidden := false }
    renderer := { filesInDirectory := [], log := [] } }

/-- A toolbar mid-typing: the user typed `no`, the previous value was
empty, and the autocomplete candidates hold one file name. -/
def autocompleteToolbar : Toolbar :=
  { initialToolbar with searchbarValue := "no", autocomplete := ["Notes.md"] }

/-- A world whose toolbar div carries one unrelated class. -/
def muteWorld : World :=
  { toolbar := { initialToolbar with divClasses := ["toolbar"] }
    renderer := { filesInDirectory := [], log := [] } }

/-- A sample button descriptor for the template. -/
def buttonDesc : Descriptor :=
  { role := "button", cls := "file-new", command := "file-new",
    content := "", title := "menu.new_file" }

/-- The autocomplete loop is the first match of the scan, completed with
the rest of the matching name. -/
theorem autocompleteLoop_eq_find (v : String) (names : List String) :
    autocompleteLoop v names =
      (names.find? (fun n => toLowerCase (strTake n v.length) == toLowerCase v)).map
        (fun n => v ++ strDrop n v.length) := by
  induction names with
  | nil => rfl
  | cons n rest ih =>
    by_cases h : (toLowerCase (strTake n v.length) == toLowerCase v) = true
    · simp [autocompleteLoop, List.find?, h]
    · simp [autocompleteLoop, List.find?, h, ih]

/-- The plain-key branch of the keyup handler never writes the
autocomplete list. -/
theorem keyupOther_autocomplete (t : Toolbar) :
    (keyupOther t).autocomplete = t.autocomplete := by
  unfold keyupOther
  split
  · rfl
  · split <;> rfl

/-- No keyup branch writes the autocomplete list. -/
theorem handle_keyup_autocomplete (t : Toolbar) (files : List String) (which : Nat) :
    (handle t files (.keyup which)).1.autocomplete = t.autocomplete := by
  simp only [handle]
  split
  · rfl
  · split
    · rfl
    · split
      · rfl
      · exact keyupOther_autocomplete t

/-- Generalised invariant for traces: when every focus in the trace is
answered by a later blur (tracked through the accumulator), an initially
empty autocomplete list ends empty. -/
theorem run_autocomplete_empty (es : List Ev) : ∀ (w : World) (b : Bool),
    (b = false → w.toolbar.autocomplete = []) →
    focusOpenAux b es = false →
    (run w es).toolbar.autocomplete = [] := by
  induction es with
  | nil => intro w b hw hb; exact hw hb
  | cons e rest ih =>
    intro w b hw hb
    refine ih (step w e) (focusAcc b e) ?_ hb
    cases e with
    | focus => intro h; simp [focusAcc] at h
    | blur => intro _; rfl
    | keyup which =>
      intro h
      exact handle_keyup_autocomplete w.toolbar w.renderer.filesInDirectory which ▸ hw h
    | endSearchClick => intro h; exact hw h
    | fileInfoClick => intro h; exact hw h
    | buttonClick b => intro h; exact hw h
    | dblclick => intro h; exact hw h

/-- Toggling a class flips its own membership. -/
theorem mem_toggleClass_self (c : String) (l : List String) :
    c ∈ toggleClass c l ↔ c ∉ l := by
  unfold toggleClass
  split
  · rename_i h
    simp [List.mem_filter, h]
  · rename_i h
    simp [h]

/-- Toggling a class leaves the membership of every other class alone. -/
theorem mem_toggleClass_ne (c d : String) (l : List String) (hne : d ≠ c) :
    d ∈ toggleClass c l ↔ d ∈ l := by
  unfold toggleClass
  split
  · simp [List.mem_filter, hne]
  · simp [hne]

/-- Claim C1, counterexample: on a button whose `data-command` and
`data-content` attributes are present but empty, the dispatched call is
not the one the claim describes (attribute value with fallback only on a
missing attribute), because the JavaScript `||` also replaces the falsy
empty string. -/
theorem claim_C1_cex :
    (handle initialToolbar [] (.buttonClick emptyAttrButton)).2 ≠
      [RendererCall.handleEvent (claimedCommand emptyAttrButton)
        (claimedContent emptyAttrButton)] := by decide

/-- Claim C1, amended: every click on a button element makes exactly one
`handleEvent` call; its command is the `data-command` attribute when that
is present and non-empty and the string `unknown-command` when it is
missing or empty, and its content is the `data-content` attribute when
present and non-empty and the empty object when missing or empty. -/
theorem claim_C1 (t : Toolbar) (files : List String) (b : ButtonElem) :
    ∃ c v, (handle t files (.buttonClick b)).2 = [RendererCall.handleEvent c v] ∧
      (∀ s, b.dataCommand = some s → s ≠ "" → c = s) ∧
      (b.dataCommand = none ∨ b.dataCommand = some "" → c = "unknown-command") ∧
      (∀ s, b.dataContent = some s → s ≠ "" → v = JSVal.str s) ∧
      (b.dataContent = none ∨ b.dataContent = some "" → v = JSVal.emptyObj) := by
  refine ⟨jsOrStr b.dataCommand "unknown-command", jsOrContent b.dataContent,
    rfl, ?_, ?_, ?_, ?_⟩
  · intro s hs hne; simp [jsOrStr, hs, hne]
  · rintro (h | h) <;> simp [jsOrStr, h]
  · intro s hs hne; simp [jsOrContent, hs, hne]
  · rintro (h | h) <;> simp [jsOrContent, h]

/-- Claim C1, witness: the amended claim at a button carrying the command
`file-new` and no content attribute. -/
theorem claim_C1_witness :
    ∃ c v, (handle initialToolbar [] (.buttonClick ⟨some "file-new", none⟩)).2 =
        [RendererCall.handleEvent c v] ∧
      (∀ s, (some "file-new" : Option String) = some s → s ≠ "" → c = s) ∧
      ((some "file-new" : Option String) = none ∨
        (some "file-new" : Option String) = some "" → c = "unknown-command") ∧
      (∀ s, (none : Option String) = some s → s ≠ "" → v = JSVal.str s) ∧
      ((none : Option String) = none ∨ (none : Option String) = some "" →
        v = JSVal.emptyObj) :=
  claim_C1 initialToolbar [] ⟨some "file-new", none⟩

/-- Claim C2: on a keyup whose key is none of ESC, RETURN, DEL and
backspace, with a non-empty value that differs from the stored one, the
handler scans the autocomplete names in order; at the first name whose
leading piece of the typed length equals the typed value
case-insensitively, the searchbar value becomes the typed value followed
by the rest of that name and the appended piece is selected; with no
matching name the value stays as typed. -/
theorem claim_C2 (t : Toolbar) (files : List String) (which : Nat)
    (h27 : which ≠ 27) (h13 : which ≠ 13) (h8 : which ≠ 8) (h46 : which ≠ 46)
    (hne : t.searchbarValue ≠ "") (hch : t.searchbarValue ≠ t.oldval) :
    (∀ n, t.autocomplete.find?
        (fun m => toLowerCase (strTake m t.searchbarValue.length) ==
          toLowerCase t.searchbarValue) = some n →
      (handle t files (.keyup which)).1.searchbarValue =
        t.searchbarValue ++ strDrop n t.searchbarValue.length ∧
      (handle t files (.keyup which)).1.searchbarSelection =
        some (t.searchbarValue.length,
          (t.searchbarValue ++ strDrop n t.searchbarValue.length).length)) ∧
    (t.autocomplete.find?
        (fun m => toLowerCase (strTake m t.searchbarValue.length) ==
          toLowerCase t.searchbarValue) = none →
      (handle t files (.keyup which)).1.searchbarValue = t.searchbarValue) := by
  have hh : handle t files (.keyup which) = (keyupOther t, []) := by
    simp [handle, h27, h13, h8, h46]
  rw [hh]
  constructor
  · intro n hn
    have hl : autocompleteLoop t.searchbarValue t.autocomplete =
        some (t.searchbarValue ++ strDrop n t.searchbarValue.length) := by
      rw [autocompleteLoop_eq_find, hn]; rfl
    simp [keyupOther, hne, hch, hl]
  · intro hn
    have hl : autocompleteLoop t.searchbarValue t.autocomplete = none := by
      rw [autocompleteLoop_eq_find, hn]; rfl
    simp [keyupOther, hne, hch, hl]

/-- Claim C2, witness: typing `no` with candidate `Notes.md` completes
the searchbar to `notes.md` and selects the appended piece. -/
theorem claim_C2_witness :
    autocompleteToolbar.searchbarValue ≠ "" ∧
    (handle autocompleteToolbar [] (.keyup 65)).1.searchbarValue =
      autocompleteToolbar.searchbarValue ++
        strDrop "Notes.md" autocompleteToolbar.searchbarValue.length ∧
    (handle autocompleteToolbar [] (.keyup 65)).1.searchbarSelection =
      some (autocompleteToolbar.searchbarValue.length,
        (autocompleteToolbar.searchbarValue ++
          strDrop "Notes.md" autocompleteToolbar.searchbarValue.length).length) :=
  ⟨by decide,
    (claim_C2 autocompleteToolbar [] 65 (by decide) (by decide) (by decide)
      (by decide) (by decide) (by decide)).1 "Notes.md" (by decide)⟩

/-- Claim C3, counterexample: a `searchProgress` call made while the
indicator still carries the class `hidden` draws nothing, so not every
call draws the arc of its progress fraction. -/
theorem claim_C3_cex :
    ¬ ((searchProgress hiddenWorld 1 4).toolbar.progressPath =
        some ((1 : ℚ) / 4)) := by decide

/-- Claim C3, amended: every `searchProgress(item, itemCnt)` call made
while the indicator is visible and with a non-zero `itemCnt` draws the
arc of the progress fraction `item / itemCnt`: its large-arc flag is 1
exactly when the fraction exceeds one half, and its endpoint is the
cosine and sine of two pi times the fraction. -/
theorem claim_C3 (w : World) (item itemCnt : ℚ)
    (hvis : w.toolbar.progressHidden = false) (_hcnt : itemCnt ≠ 0) :
    ∃ p : ℚ, (searchProgress w item itemCnt).toolbar.progressPath = some p ∧
      (largeArcFlag p = 1 ↔ item / itemCnt > 1/2) ∧
      arcX p = Real.cos (2 * Real.pi * ((item / itemCnt : ℚ) : ℝ)) ∧
      arcY p = Real.sin (2 * Real.pi * ((item / itemCnt : ℚ) : ℝ)) := by
  refine ⟨item / itemCnt, ?_, ?_, rfl, rfl⟩
  · simp [searchProgress, hvis]
  · unfold largeArcFlag
    split <;> rename_i h
    · simpa using h
    · simpa using not_lt.mp h

/-- Claim C3, witness: the amended claim at a visible indicator with
progress 3 of 4. -/
theorem claim_C3_witness :
    visibleWorld.toolbar.progressHidden = false ∧ (4 : ℚ) ≠ 0 ∧
    (∃ p : ℚ, (searchProgress visibleWorld 3 4).toolbar.progressPath = some p ∧
      (largeArcFlag p = 1 ↔ (3 : ℚ) / 4 > 1/2) ∧
      arcX p = Real.cos (2 * Real.pi * (((3 : ℚ) / 4 : ℚ) : ℝ)) ∧
      arcY p = Real.sin (2 * Real.pi * (((3 : ℚ) / 4 : ℚ) : ℝ))) :=
  ⟨rfl, by norm_num, claim_C3 visibleWorld 3 4 rfl (by norm_num)⟩

/-- Unrolling the build loop: the built list is the input div followed by
one child per descriptor, in template order. -/
theorem buildLoop_eq_map (tr : String → String) (tpl : List Descriptor) :
    ∀ div : List DomChild, buildLoop tr div tpl = div ++ tpl.map (buildChild tr) := by
  induction tpl with
  | nil => intro div; simp [buildLoop]
  | cons e rest ih => intro div; simp [buildLoop, ih]

/-- Claim C4: `_build` appends exactly one DOM child per descriptor, in
template order; a button descriptor yields a div with the descriptor
class, its `data-command`, `data-content` and translated title, a
searchbar descriptor yields a div holding a text input and an end-search
element, and a pomodoro descriptor yields a button-classed div with
`data-command` pomodoro holding an SVG. -/
theorem claim_C4 (tr : String → String) (div : List DomChild)
    (tpl : List Descriptor) (e : Descriptor) :
    buildLoop tr div tpl = div ++ tpl.map (buildChild tr) ∧
    (buildLoop tr div tpl).length = div.length + tpl.length ∧
    (e.role = "button" → buildChild tr e =
      { classes := ["button", e.cls]
        attrs := [("data-command", e.command), ("data-content", e.content),
                  ("title", tr e.title)]
        innerHtml := "" }) ∧
    (e.role = "searchbar" → buildChild tr e =
      { classes := ["searchbar"], attrs := [], innerHtml := searchbarHtml }) ∧
    (e.role = "pomodoro" → buildChild tr e =
      { classes := ["pomodoro", "button"]
        attrs := [("data-command", "pomodoro")]
        innerHtml := pomodoroSvgHtml }) := by
  refine ⟨buildLoop_eq_map tr tpl div, ?_, ?_, ?_, ?_⟩
  · rw [buildLoop_eq_map]; simp
  · intro h; simp [buildChild, h]
  · intro h; simp [buildChild, h]
  · intro h; simp [buildChild, h]

/-- Claim C4, witness: the claim at a concrete button descriptor and the
identity translation. -/
theorem claim_C4_witness :
    buttonDesc.role = "button" ∧
    buildChild (fun s => s) buttonDesc =
      { classes := ["button", "file-new"]
        attrs := [("data-command", "file-new"), ("data-content", ""),
                  ("title", "menu.new_file")]
        innerHtml := "" } :=
  ⟨rfl, (claim_C4 (fun s => s) [] [] buttonDesc).2.2.1 rfl⟩

/-- Claim C5, counterexample: the ESC branch of the searchbar keyup
listener calls the renderer, and not every such call is a generic
`handleEvent` dispatch (it is `exitSearch`). -/
theorem claim_C5_cex :
    ((handle initialToolbar [] (.keyup 27)).2.all isHandleEvent) = false := by decide

/-- Claim C5, amended: every listener delegates only to the single
renderer object, but not solely through the generic dispatch: button
clicks and the toolbar double-click dispatch `handleEvent`, the ESC keyup
and the end-search click call `exitSearch`, the RETURN keyup calls
`beginSearch` with the searchbar value, the file-info click calls
`showFileInfo`, and the remaining listeners make no renderer call. -/
theorem claim_C5 (t : Toolbar) (files : List String) (b : ButtonElem) (which : Nat)
    (h27 : which ≠ 27) (h13 : which ≠ 13) :
    (handle t files (.buttonClick b)).2 =
      [.handleEvent (jsOrStr b.dataCommand "unknown-command")
        (jsOrContent b.dataContent)] ∧
    (handle t files .dblclick).2 = [.handleEvent "app-maximise" .undef] ∧
    (handle t files (.keyup 27)).2 = [.exitSearch] ∧
    (handle t files (.keyup 13)).2 = [.beginSearch t.searchbarValue] ∧
    (handle t files (.keyup which)).2 = [] ∧
    (handle t files .endSearchClick).2 = [.exitSearch] ∧
    (handle t files .focus).2 = [] ∧
    (handle t files .blur).2 = [] ∧
    (handle t files .fileInfoClick).2 = [.showFileInfo] := by
  refine ⟨rfl, rfl, rfl, rfl, ?_, rfl, rfl, rfl, rfl⟩
  simp only [handle]
  rw [if_neg h27, if_neg h13]
  split <;> rfl

/-- Claim C5, witness: the amended claim at key code 65; a plain keyup
makes no renderer call and the file-info click calls `showFileInfo`. -/
theorem claim_C5_witness :
    (65 : Nat) ≠ 27 ∧ (65 : Nat) ≠ 13 ∧
    (handle initialToolbar ["Alpha.md"] (.keyup 65)).2 = [] ∧
    (handle initialToolbar ["Alpha.md"] .fileInfoClick).2 = [.showFileInfo] :=
  ⟨by decide, by decide,
    (claim_C5 initialToolbar ["Alpha.md"] emptyAttrButton 65
      (by decide) (by decide)).2.2.2.2.1,
    (claim_C5 initialToolbar ["Alpha.md"] emptyAttrButton 65
      (by decide) (by decide)).2.2.2.2.2.2.2.2⟩

/-- Claim C6: the focus listener sets the candidate list to the files the
renderer reports, the blur listener resets the list to empty and the
stored old search string to the empty string, and along any trace whose
focuses are all answered by a later blur an initially empty candidate
list stays empty. -/
theorem claim_C6 :
    (∀ w : World, (step w .focus).toolbar.autocomplete =
      w.renderer.filesInDirectory) ∧
    (∀ w : World, (step w .blur).toolbar.autocomplete = [] ∧
      (step w .blur).toolbar.oldval = "") ∧
    (∀ (w : World) (es : List Ev), w.toolbar.autocomplete = [] →
      focusOpen es = false → (run w es).toolbar.autocomplete = []) :=
  ⟨fun _ => rfl, fun _ => ⟨rfl, rfl⟩,
    fun w es hw hes => run_autocomplete_empty es w false (fun _ => hw) hes⟩

/-- Claim C6, witness: a focus, a keystroke and a blur leave the freshly
constructed toolbar with an empty candidate list. -/
theorem claim_C6_witness :
    sampleWorld.toolbar.autocomplete = [] ∧
    focusOpen [Ev.focus, Ev.keyup 65, Ev.blur] = false ∧
    (run sampleWorld [Ev.focus, Ev.keyup 65, Ev.blur]).toolbar.autocomplete = [] :=
  ⟨rfl, by decide,
    claim_C6.2.2 sampleWorld [Ev.focus, Ev.keyup 65, Ev.blur] rfl (by decide)⟩

/-- Claim C7: each public imperative method of the toolbar leaves the
renderer state untouched; only the view object changes. -/
theorem claim_C7 (tr : String → String → String) (loc : Int → String)
    (w : World) (words : Int) (term : String) (item itemCnt : ℚ) :
    (updateWordCount tr loc w words).renderer = w.renderer ∧
    (hideWordCount w).renderer = w.renderer ∧
    ((toggleDistractionFree w).1).renderer = w.renderer ∧
    (focusSearch w).renderer = w.renderer ∧
    (setSearch w term).renderer = w.renderer ∧
    (searchProgress w item itemCnt).renderer = w.renderer ∧
    (endSearch w).renderer = w.renderer := by
  refine ⟨?_, rfl, rfl, rfl, rfl, ?_, rfl⟩
  · unfold updateWordCount; split <;> rfl
  · unfold searchProgress; split <;> rfl

/-- Claim C8: a word count of zero clears the file-info text exactly as
`hideWordCount` does, and every non-zero count writes the translated,
localised count. -/
theorem claim_C8 (tr : String → String → String) (loc : Int → String) (w : World) :
    updateWordCount tr loc w 0 = hideWordCount w ∧
    (hideWordCount w).toolbar.fileInfoText = "" ∧
    (∀ words : Int, words ≠ 0 →
      (updateWordCount tr loc w words).toolbar.fileInfoText =
        tr "gui.words" (loc words)) := by
  refine ⟨rfl, rfl, ?_⟩
  intro words hw
  simp [updateWordCount, hw]

/-- Claim C8, witness: the claim at a count of 5 with concatenation as
translation and `toString` as localisation. -/
theorem claim_C8_witness :
    (5 : Int) ≠ 0 ∧
    (updateWordCount (fun a b => a ++ b) (fun n => toString n)
      sampleWorld 5).toolbar.fileInfoText = "gui.words" ++ toString (5 : Int) :=
  ⟨by decide,
    (claim_C8 (fun a b => a ++ b) (fun n => toString n) sampleWorld).2.2 5 (by decide)⟩

/-- Claim C9: a `searchProgress` call on a hidden indicator only removes
the class `hidden` and leaves everything else, the arc path included,
unchanged; a call on a visible indicator recomputes the path from the
progress fraction; and `endSearch` restores the class `hidden`. -/
theorem claim_C9 (w : World) (item itemCnt : ℚ) :
    (w.toolbar.progressHidden = true →
      searchProgress w item itemCnt =
        { w with toolbar := { w.toolbar with progressHidden := false } }) ∧
    (w.toolbar.progressHidden = false →
      searchProgress w item itemCnt =
        { w with toolbar :=
            { w.toolbar with progressPath := some (item / itemCnt) } }) ∧
    (endSearch w).toolbar.progressHidden = true := by
  refine ⟨?_, ?_, rfl⟩
  · intro h; simp [searchProgress, h]
  · intro h; simp [searchProgress, h]

/-- Claim C9, witness: the claim at the freshly constructed, hidden
indicator. -/
theorem claim_C9_witness :
    hiddenWorld.toolbar.progressHidden = true ∧
    searchProgress hiddenWorld 1 2 =
      { hiddenWorld with toolbar :=
          { hiddenWorld.toolbar with progressHidden := false } } :=
  ⟨rfl, (claim_C9 hiddenWorld 1 2).1 rfl⟩

/-- Claim C10: `toggleDistractionFree` returns the toolbar itself, flips
the presence of exactly the class `mute` on the toolbar div, and applied
twice restores the original presence or absence of that class. -/
theorem claim_C10 (w : World) :
    (toggleDistractionFree w).2 = JRet.thisToolbar ∧
    ("mute" ∈ (toggleDistractionFree w).1.toolbar.divClasses ↔
      "mute" ∉ w.toolbar.divClasses) ∧
    (∀ c, c ≠ "mute" →
      (c ∈ (toggleDistractionFree w).1.toolbar.divClasses ↔
        c ∈ w.toolbar.divClasses)) ∧
    ("mute" ∈
        (toggleDistractionFree (toggleDistractionFree w).1).1.toolbar.divClasses ↔
      "mute" ∈ w.toolbar.divClasses) := by
  refine ⟨rfl, mem_toggleClass_self _ _, ?_, ?_⟩
  · intro c hc; exact mem_toggleClass_ne _ _ _ hc
  · show "mute" ∈ toggleClass "mute" (toggleClass "mute" w.toolbar.divClasses) ↔ _
    rw [mem_toggleClass_self, mem_toggleClass_self]
    exact not_not

/-- Claim C10, witness: a class other than `mute` keeps its membership
across the toggle. -/
theorem claim_C10_witness :
    ("toolbar" : String) ≠ "mute" ∧
    ("toolbar" ∈ (toggleDistractionFree muteWorld).1.toolbar.divClasses ↔
      "toolbar" ∈ muteWorld.toolbar.divClasses) :=
  ⟨by decide, (claim_C10 muteWorld).2.2.1 "toolbar" (by decide)⟩

end ZettlrToolbar
